import Mathlib

/-!
Shallow embedding of the `express-auto-crud` endpoint generator (`autoCRUD`).

The source registers five Express handlers over a Mongoose model. Here the
pure decision logic of those handlers is embedded directly:

* option normalization (the `opts` object built at the top of `autoCRUD`),
  over a small model of JavaScript values so that truthiness (`||` defaulting)
  and strict inequality (`!== false`) are represented exactly;
* the query-intent helpers `buildFilter` and `applySort`, and the inline
  `page`/`limit`/`skip` resolution of the list handler;
* the list handler's response assembly, with the accessor modelled
  symbolically: the handler returns both the response and the list of
  database operations it issues (`find(...).exec()` with or without a
  skip/limit window, and `countDocuments`), with the operation results
  supplied as explicit `Except` arguments (a rejected promise is `error`);
* the create / update / delete handlers, with the optional hooks and the
  validator modelled by the outcome of invoking them (`none` = not
  configured, `some (ok _)` = returned normally, `some (error m)` = threw an
  error whose `.message` is `m`), and with a boolean recording whether the
  persistence operation was reached.

Machine numbers are `Int` (Express query values are strings; `parseInt`
yields either an integer or NaN, modelled as `Option Int`).
-/

/-- Model of the JavaScript values that can be supplied for an option leaf:
`undefined`, `null`, booleans, (integer) numbers and strings. -/
inductive JsVal where
  | undef
  | nul
  | boolean (b : Bool)
  | num (n : Int)
  | str (s : String)
deriving DecidableEq

/-- JavaScript truthiness for `JsVal`: `undefined`, `null`, `false`, `0` and
`""` are falsy, everything else is truthy. -/
def JsVal.truthy : JsVal → Bool
  | .undef => false
  | .nul => false
  | .boolean b => b
  | .num n => decide (n ≠ 0)
  | .str s => decide (s ≠ "")

/-- Caller-supplied option leaves normalized at the top of `autoCRUD`
(src/unnamed/part_000 lines 3-22). An absent leaf (for example when the whole
`pagination` object is missing, so `options.pagination?.enabled` evaluates to
`undefined`) is `JsVal.undef`. -/
structure RawCrudOptions where
  paginationEnabled : JsVal
  paginationDefaultLimit : JsVal
  paginationMaxLimit : JsVal
  sortDefault : JsVal
  filterEnabled : JsVal
deriving DecidableEq

/-- Result of option normalization for the leaves modelled in
`RawCrudOptions`. -/
structure NormCrudOptions where
  paginationEnabled : Bool
  defaultLimit : JsVal
  maxLimit : JsVal
  sortDefault : JsVal
  filterEnabled : Bool
deriving DecidableEq

/-- Embedding of the `opts` normalization (src/unnamed/part_000 lines 3-22):
`enabled: options.pagination?.enabled !== false`,
`defaultLimit: options.pagination?.defaultLimit || 20`,
`maxLimit: options.pagination?.maxLimit || 100`,
`default: options.sort?.default || '-createdAt'`,
`enabled: options.filter?.enabled !== false`.
JavaScript `x || d` returns `x` when `x` is truthy and `d` otherwise. -/
def normalizeOpts (o : RawCrudOptions) : NormCrudOptions :=
  { paginationEnabled := decide (o.paginationEnabled ≠ JsVal.boolean false),
    defaultLimit :=
      if o.paginationDefaultLimit.truthy then o.paginationDefaultLimit else JsVal.num 20,
    maxLimit :=
      if o.paginationMaxLimit.truthy then o.paginationMaxLimit else JsVal.num 100,
    sortDefault :=
      if o.sortDefault.truthy then o.sortDefault else JsVal.str "-createdAt",
    filterEnabled := decide (o.filterEnabled ≠ JsVal.boolean false) }

/-- Decimal value of a list of digit characters, most significant first. -/
def digitsToNat (ds : List Char) : Nat :=
  ds.foldl (fun acc c => acc * 10 + (c.toNat - Char.toNat '0')) 0

/-- Model of the JavaScript `parseInt` builtin on the decimal inputs that
occur as query-string values: skip leading spaces, read an optional sign,
then the maximal leading run of decimal digits; the result is `none` (NaN)
when that run is empty, and otherwise the signed value of the run (trailing
garbage is ignored, as in `parseInt`). -/
def parseIntJS (s : String) : Option Int :=
  let cs := s.data.dropWhile (fun c => c = ' ')
  let signAndRest : Bool × List Char :=
    match cs with
    | '-' :: r => (true, r)
    | '+' :: r => (false, r)
    | _ => (false, cs)
  let ds := signAndRest.2.takeWhile Char.isDigit
  if ds.isEmpty then none
  else
    let v : Int := Int.ofNat (digitsToNat ds)
    some (if signAndRest.1 then -v else v)

/-- JavaScript `x || d` on a number that may be NaN (`none`): NaN and `0` are
falsy, so both fall back to `d`. -/
def jsOrNum (x : Option Int) (d : Int) : Int :=
  match x with
  | none => d
  | some n => if n = 0 then d else n

/-- JavaScript `m || d` on strings: the empty string is falsy. Used for
`error.message || 'fallback'` in the catch blocks. -/
def jsOrStr (m d : String) : String :=
  if m = "" then d else m

/-- Lookup of a query-string parameter: `req.query.k`, `none` when the key is
absent. -/
def qlookup (query : List (String × String)) (k : String) : Option String :=
  (query.find? (fun kv => kv.1 = k)).map (fun kv => kv.2)

/-- Embedding of the list handler's page resolution (src/unnamed/part_000
line 61): `Math.max(1, parseInt(req.query.page) || 1)`. -/
def resolvePage (queryPage : Option String) : Int :=
  max 1 (jsOrNum (queryPage.bind parseIntJS) 1)

/-- Embedding of the list handler's limit resolution (src/unnamed/part_000
line 62):
`Math.min(opts.pagination.maxLimit, parseInt(req.query.limit) || opts.pagination.defaultLimit)`. -/
def resolveLimit (defaultLimit maxLimit : Int) (queryLimit : Option String) : Int :=
  min maxLimit (jsOrNum (queryLimit.bind parseIntJS) defaultLimit)

/-- The three reserved query-string keys skipped by `buildFilter`. -/
def reservedKeys : List String := ["page", "limit", "sort"]

/-- Embedding of the `buildFilter` helper (src/unnamed/part_000 lines 24-36):
empty map when filtering is disabled; otherwise every non-reserved key whose
name is allowed (or any name when the allowed list is empty), with its raw
string value. -/
def buildFilter (filterEnabled : Bool) (allowed : List String)
    (query : List (String × String)) : List (String × String) :=
  if !filterEnabled then []
  else
    query.filter (fun kv =>
      !(reservedKeys.contains kv.1) && (decide (allowed.length = 0) || allowed.contains kv.1))

/-- Strip one leading `-` from a sort value: the source applies
`query.sort.replace` with a regular expression anchored at the start of the
string matching a single dash, replacing it with the empty string. -/
def stripLeadingDash (s : String) : String :=
  match s.data with
  | '-' :: rest => String.mk rest
  | _ => s

/-- Embedding of the `applySort` helper (src/unnamed/part_000 lines 38-47).
`if (query.sort)` is a JavaScript truthiness test, so an absent value and the
empty string both take the default branch. -/
def applySort (sortDefault : String) (allowed : List String)
    (querySort : Option String) : String :=
  match querySort with
  | some s =>
      if s ≠ "" then
        let sortField := stripLeadingDash s
        if decide (0 < allowed.length) && !(allowed.contains sortField) then sortDefault
        else s
      else sortDefault
  | none => sortDefault

/-- Model of `Math.ceil(total / limit)` on an exact integer quotient, written
with floor division as `-⌊-total / limit⌋` (for any nonzero `limit`, the
ceiling of a rational is the negated floor of its negation). -/
def jsCeilDiv (total : Nat) (limit : Int) : Int :=
  -(Int.fdiv (-(total : Int)) limit)

/-- The `pagination` object of the paginated list response
(src/unnamed/part_000 lines 81-87). -/
structure PaginationInfo where
  total : Nat
  page : Int
  limit : Int
  totalPages : Int
  hasNextPage : Bool
deriving DecidableEq

/-- Response of the list handler: `paginated`/`plain` are the two `res.json`
success shapes (HTTP status 200), `failure s m` is `res.status(s).json({error:
true, message: m})`. -/
inductive ListResponse (α : Type) where
  | paginated (data : List α) (pagination : PaginationInfo)
  | plain (data : List α)
  | failure (status : Int) (message : String)
deriving DecidableEq

/-- Database operations the list handler can issue against the model: an
executed `find(filter, projection).sort(sort)` read, windowed by
`.skip(skip).limit(limit)` when `window = some (skip, limit)`, and a
`countDocuments(filter)`. -/
inductive DbOp where
  | findExec (filter : List (String × String)) (sortSpec : String)
      (window : Option (Int × Int))
  | countDocuments (filter : List (String × String))
deriving DecidableEq

/-- Normalized configuration consumed by the list handler. -/
structure CrudConfig where
  paginationEnabled : Bool
  defaultLimit : Int
  maxLimit : Int
  sortDefault : String
  sortAllowed : List String
  filterEnabled : Bool
  filterAllowed : List String
deriving DecidableEq

/-- Embedding of the list handler (src/unnamed/part_000 lines 59-98).
`execResult` and `countResult` are the outcomes of the two operations awaited
by `Promise.all` (the read is listed before the count, as in the source; when
both reject the read's rejection is the one surfaced). The handler returns
the response together with the operations issued: the read is windowed by
`.skip(skip).limit(limit)` exactly when pagination is enabled, and
`countDocuments` is part of the `Promise.all` array unconditionally. -/
def listHandler {α : Type} (cfg : CrudConfig) (query : List (String × String))
    (execResult : Except String (List α)) (countResult : Except String Nat) :
    ListResponse α × List DbOp :=
  let page := resolvePage (qlookup query "page")
  let limit := resolveLimit cfg.defaultLimit cfg.maxLimit (qlookup query "limit")
  let filter := buildFilter cfg.filterEnabled cfg.filterAllowed query
  let sort := applySort cfg.sortDefault cfg.sortAllowed (qlookup query "sort")
  let skip := (page - 1) * limit
  let ops := [DbOp.findExec filter sort
                (if cfg.paginationEnabled then some (skip, limit) else none),
              DbOp.countDocuments filter]
  match execResult, countResult with
  | Except.error e, _ =>
      (ListResponse.failure 500 (jsOrStr e "Failed to fetch documents"), ops)
  | Except.ok _, Except.error e =>
      (ListResponse.failure 500 (jsOrStr e "Failed to fetch documents"), ops)
  | Except.ok data, Except.ok total =>
      if cfg.paginationEnabled then
        let totalPages := jsCeilDiv total limit
        (ListResponse.paginated data
          ⟨total, page, limit, totalPages, decide (page < totalPages)⟩, ops)
      else
        (ListResponse.plain data, ops)

/-- Outcome of invoking an optional hook: an absent hook is a no-op, a
configured hook either returns normally or throws the message carried by
`error`. -/
def runHook (hook : Option (Except String Unit)) : Except String Unit :=
  hook.getD (Except.ok ())

/-- Responses of the create/update/delete handlers: `json s d` is
`res.status(s).json(doc)` (`res.json(doc)` being status 200), `deleted i` is
the delete success body `{success: true, message: 'Document deleted
successfully', id: i}`, and `err s m` is `res.status(s).json({error: true,
message: m})`. -/
inductive Resp (α : Type) where
  | json (status : Int) (body : α)
  | deleted (id : String)
  | err (status : Int) (message : String)
deriving DecidableEq

/-- Embedding of the create handler (src/unnamed/part_000 lines 128-152).
`validateBody` is the outcome of the configured predicate (`none` when not
configured; throwing lands in the catch). The boolean of the result records
whether `model.create` was invoked. Every caught error responds
`errorResponse(res, error.message || 'Failed to create document', 400)`. -/
def createHandler {α : Type} (validateBody : Option (Except String Bool))
    (beforeCreate afterCreate : Option (Except String Unit))
    (createResult : Except String α) : Resp α × Bool :=
  match validateBody with
  | some (Except.error e) => (Resp.err 400 (jsOrStr e "Failed to create document"), false)
  | some (Except.ok false) => (Resp.err 400 "Validation failed", false)
  | _ =>
    match runHook beforeCreate with
    | Except.error e => (Resp.err 400 (jsOrStr e "Failed to create document"), false)
    | Except.ok _ =>
      match createResult with
      | Except.error e => (Resp.err 400 (jsOrStr e "Failed to create document"), true)
      | Except.ok doc =>
        match runHook afterCreate with
        | Except.error e => (Resp.err 400 (jsOrStr e "Failed to create document"), true)
        | Except.ok _ => (Resp.json 201 doc, true)

/-- Embedding of the update handler (src/unnamed/part_000 lines 156-185).
`updateResult` is the outcome of `findByIdAndUpdate` (`ok none` = no document
matched). The boolean records whether `findByIdAndUpdate` was invoked. -/
def updateHandler {α : Type} (id : Option String)
    (beforeUpdate afterUpdate : Option (Except String Unit))
    (updateResult : Except String (Option α)) : Resp α × Bool :=
  match id with
  | none => (Resp.err 400 "ID is required", false)
  | some i =>
    if i = "" then (Resp.err 400 "ID is required", false)
    else
      match runHook beforeUpdate with
      | Except.error e => (Resp.err 400 (jsOrStr e "Failed to update document"), false)
      | Except.ok _ =>
        match updateResult with
        | Except.error e => (Resp.err 400 (jsOrStr e "Failed to update document"), true)
        | Except.ok none => (Resp.err 404 "Document not found", true)
        | Except.ok (some doc) =>
          match runHook afterUpdate with
          | Except.error e => (Resp.err 400 (jsOrStr e "Failed to update document"), true)
          | Except.ok _ => (Resp.json 200 doc, true)

/-- Embedding of the delete handler (src/unnamed/part_000 lines 189-216).
`deleteResult` is the outcome of `findByIdAndDelete`. The boolean records
whether `findByIdAndDelete` was invoked; the catch block responds with the
default status 500. -/
def deleteHandler {α : Type} (id : Option String)
    (beforeDelete afterDelete : Option (Except String Unit))
    (deleteResult : Except String (Option α)) : Resp α × Bool :=
  match id with
  | none => (Resp.err 400 "ID is required", false)
  | some i =>
    if i = "" then (Resp.err 400 "ID is required", false)
    else
      match runHook beforeDelete with
      | Except.error e => (Resp.err 500 (jsOrStr e "Failed to delete document"), false)
      | Except.ok _ =>
        match deleteResult with
        | Except.error e => (Resp.err 500 (jsOrStr e "Failed to delete document"), true)
        | Except.ok none => (Resp.err 404 "Document not found", true)
        | Except.ok (some _) =>
          match runHook afterDelete with
          | Except.error e => (Resp.err 500 (jsOrStr e "Failed to delete document"), true)
          | Except.ok _ => (Resp.deleted i, true)


/-- C1, counterexample: the claim asserts that a requested limit below 1
(zero or negative) passes through unclamped, but a requested limit of `0` is
falsy in `parseInt(req.query.limit) || opts.pagination.defaultLimit`, so it
is replaced by the configured default (20 here) instead of passing through as
`0`. -/
theorem C1_counterexample :
    resolveLimit 20 100 (some "0") = 20 ∧ resolveLimit 20 100 (some "0") ≠ 0 := by
  decide

/-- C1, amended: the resolved limit is `min(maxLimit, requested)` when
`limit` parses as a positive integer, and the configured default when `limit`
is absent, non-numeric, or parses to `0` (zero is falsy, so it is replaced by
the default rather than passing through); only a negative requested limit
passes through unclamped. Hypotheses are the configuration invariants of the
specification: `defaultLimit ≤ maxLimit` and `1 ≤ maxLimit`. -/
theorem C1_limit_resolution (d m : Int) (hdm : d ≤ m) (hm : 1 ≤ m) :
    (∀ s n, parseIntJS s = some n → 1 ≤ n →
      resolveLimit d m (some s) = min m n) ∧
    resolveLimit d m none = d ∧
    (∀ s, parseIntJS s = none → resolveLimit d m (some s) = d) ∧
    (∀ s, parseIntJS s = some 0 → resolveLimit d m (some s) = d) ∧
    (∀ s n, parseIntJS s = some n → n < 0 → resolveLimit d m (some s) = n) := by
  refine ⟨?_, ?_, ?_, ?_, ?_⟩
  · intro s n hs hn
    have hn0 : ¬n = 0 := by omega
    simp [resolveLimit, jsOrNum, hs, hn0]
  · simp only [resolveLimit, jsOrNum, Option.none_bind]
    exact min_eq_right hdm
  · intro s hs
    simp only [resolveLimit, jsOrNum, Option.some_bind, hs]
    exact min_eq_right hdm
  · intro s hs
    simp only [resolveLimit, jsOrNum, Option.some_bind, hs, if_pos rfl]
    exact min_eq_right hdm
  · intro s n hs hn
    have hn0 : ¬n = 0 := by omega
    simp only [resolveLimit, jsOrNum, Option.some_bind, hs, if_neg hn0]
    exact min_eq_right (by omega)

/-- C1 witness: with defaults 20/100, a requested limit of `5` resolves to
`min 100 5`. -/
theorem C1_limit_resolution_witness :
    resolveLimit 20 100 (some "5") = min 100 5 :=
  (C1_limit_resolution 20 100 (by decide) (by decide)).1 "5" 5 (by decide) (by decide)

/-- C8: the resolved page is the parsed integer value of `page`, except that
a missing, non-numeric, or less-than-1 value resolves to 1; the resolved page
is always at least 1. -/
theorem C8_page_resolution (s : String) (n : Int) :
    resolvePage none = 1 ∧
    (parseIntJS s = none → resolvePage (some s) = 1) ∧
    (parseIntJS s = some n → n < 1 → resolvePage (some s) = 1) ∧
    (parseIntJS s = some n → 1 ≤ n → resolvePage (some s) = n) ∧
    (∀ q : Option String, 1 ≤ resolvePage q) := by
  refine ⟨by decide, ?_, ?_, ?_, ?_⟩
  · intro hs
    simp only [resolvePage, jsOrNum, Option.some_bind, hs]
    exact max_self 1
  · intro hs hn
    rcases eq_or_ne n 0 with h0 | h0
    · simp only [resolvePage, jsOrNum, Option.some_bind, hs, h0, if_pos rfl]
      exact max_self 1
    · simp only [resolvePage, jsOrNum, Option.some_bind, hs, if_neg h0]
      exact max_eq_left (by omega)
  · intro hs hn
    have h0 : ¬n = 0 := by omega
    simp only [resolvePage, jsOrNum, Option.some_bind, hs, if_neg h0]
    exact max_eq_right hn
  · intro q
    exact le_max_left 1 _

/-- C8 witness: `page=2` resolves to 2, and a negative page resolves to 1. -/
theorem C8_page_resolution_witness :
    resolvePage (some "2") = 2 ∧ resolvePage (some "-3") = 1 :=
  ⟨(C8_page_resolution "2" 2).2.2.2.1 (by decide) (by decide),
   (C8_page_resolution "-3" (-3)).2.2.1 (by decide) (by decide)⟩

/-- C3: when a (non-empty) `sort` value is supplied, stripping one leading
`-` gives the bare field; if the allowed set is non-empty and does not
contain the bare field, the resolved sort is the configured default,
otherwise it is the requested value verbatim; when no `sort` value is
supplied the resolved sort is the configured default. (An empty-string
`sort` value is falsy in the source's `if (query.sort)` test and counts as
not supplied.) -/
theorem C3_sort_resolution (d : String) (allowed : List String) (s : String) :
    applySort d allowed none = d ∧
    (s ≠ "" → allowed ≠ [] → stripLeadingDash s ∉ allowed →
      applySort d allowed (some s) = d) ∧
    (s ≠ "" → (allowed = [] ∨ stripLeadingDash s ∈ allowed) →
      applySort d allowed (some s) = s) := by
  refine ⟨rfl, ?_, ?_⟩
  · intro hs ha hmem
    have hl : 0 < allowed.length := List.length_pos.mpr ha
    simp [applySort, hs, hl, hmem]
  · intro hs hmem
    rcases hmem with h | h
    · subst h
      simp [applySort, hs]
    · simp [applySort, hs, h]

/-- C3 witness: with allowed set `{name}`, the request `sort=-age` resolves
to the configured default `-createdAt` (field and direction both
discarded). -/
theorem C3_sort_resolution_witness :
    applySort "-createdAt" ["name"] (some "-age") = "-createdAt" :=
  (C3_sort_resolution "-createdAt" ["name"] "-age").2.1 (by decide) (by decide) (by decide)

/-- C4: the resolved filter map is empty when filtering is disabled;
otherwise it contains exactly the non-reserved query keys that the allowed
set permits (an empty allowed set permits every key), each with its raw
string value; consequently its keys lie in the allowed set whenever that set
is non-empty. -/
theorem C4_filter_map (allowed : List String) (query : List (String × String))
    (k v : String) :
    buildFilter false allowed query = [] ∧
    ((k, v) ∈ buildFilter true allowed query ↔
      (k, v) ∈ query ∧ k ∉ reservedKeys ∧ (allowed = [] ∨ k ∈ allowed)) ∧
    (allowed ≠ [] → ∀ p, p ∈ buildFilter true allowed query → p.1 ∈ allowed) := by
  refine ⟨rfl, ?_, ?_⟩
  · simp [buildFilter, List.mem_filter, List.length_eq_zero, or_comm]
  · intro ha p hp
    have h : p ∈ query ∧ p.1 ∉ reservedKeys ∧ (allowed = [] ∨ p.1 ∈ allowed) := by
      simpa [buildFilter, List.mem_filter, List.length_eq_zero] using hp
    rcases h.2.2 with h0 | h0
    · exact absurd h0 ha
    · exact h0

/-- C4 witness: with allowed set `{age, role}` and query
`age=30&city=NYC`, the key `age` (with raw value `"30"`) is in the resolved
filter. -/
theorem C4_filter_map_witness :
    ("age", "30") ∈ buildFilter true ["age", "role"] [("age", "30"), ("city", "NYC")] :=
  (C4_filter_map ["age", "role"] [("age", "30"), ("city", "NYC")] "age" "30").2.1.mpr
    ⟨by decide, by decide, by decide⟩

/-- C2, counterexample: the claim asserts that with pagination disabled the
handler performs no count operation, but `model.countDocuments(filter)` is an
unconditional member of the `Promise.all` array, so a count is issued even
when pagination is disabled. -/
theorem C2_counterexample :
    DbOp.countDocuments [] ∈
      (listHandler (CrudConfig.mk false 20 100 "-createdAt" [] true [])
        ([] : List (String × String)) (Except.ok ([] : List Nat)) (Except.ok 0)).2 := by
  decide

/-- C2, amended: with pagination disabled the handler issues the unwindowed
read and also the count of documents matching the filter (the count is part
of the `Promise.all` regardless of pagination), and responds 200 with
`{data}`. -/
theorem C2_list_unpaginated {α : Type} (cfg : CrudConfig)
    (query : List (String × String)) (data : List α) (total : Nat)
    (hpag : cfg.paginationEnabled = false) :
    listHandler cfg query (Except.ok data) (Except.ok total) =
      (ListResponse.plain data,
       [DbOp.findExec (buildFilter cfg.filterEnabled cfg.filterAllowed query)
          (applySort cfg.sortDefault cfg.sortAllowed (qlookup query "sort")) none,
        DbOp.countDocuments (buildFilter cfg.filterEnabled cfg.filterAllowed query)]) := by
  simp [listHandler, hpag]

/-- C2 witness: a concrete unpaginated list request issues the unwindowed
read plus the count and responds with the plain data envelope. -/
theorem C2_list_unpaginated_witness :
    listHandler (CrudConfig.mk false 20 100 "-createdAt" [] true [])
        [("role", "admin")] (Except.ok ([7] : List Nat)) (Except.ok 1) =
      (ListResponse.plain [7],
       [DbOp.findExec [("role", "admin")] "-createdAt" none,
        DbOp.countDocuments [("role", "admin")]]) := by
  have h := C2_list_unpaginated (CrudConfig.mk false 20 100 "-createdAt" [] true [])
      [("role", "admin")] ([7] : List Nat) 1 rfl
  rw [h]
  decide

/-- Helper: for a positive limit, `jsCeilDiv total limit` is the ceiling of
`total / limit`, characterized by `(k-1)*limit < total ≤ k*limit`. -/
lemma jsCeilDiv_spec (t : Nat) (l : Int) (hl : 0 < l) :
    (jsCeilDiv t l - 1) * l < (t : Int) ∧ (t : Int) ≤ jsCeilDiv t l * l := by
  have hfe : Int.fdiv (-(t : Int)) l = (-(t : Int)) / l :=
    Int.fdiv_eq_ediv _ (le_of_lt hl)
  have hmod := Int.emod_add_ediv (-(t : Int)) l
  have hmn : 0 ≤ (-(t : Int)) % l := Int.emod_nonneg _ (by omega)
  have hml : (-(t : Int)) % l < l := Int.emod_lt_of_pos _ hl
  unfold jsCeilDiv
  rw [hfe]
  constructor
  · nlinarith
  · nlinarith

/-- C7: for a paginated list response (pagination enabled, both accessor
operations succeed, resolved limit positive), the windowed read uses
`skip = (page - 1) * limit` exactly, `totalPages` is the ceiling of
`total / limit` (characterized by `(totalPages-1)*limit < total ≤
totalPages*limit`), and `hasNextPage` is true exactly when
`page < totalPages`. -/
theorem C7_pagination_math {α : Type} (cfg : CrudConfig)
    (query : List (String × String)) (data : List α) (total : Nat)
    (page limit : Int)
    (hpag : cfg.paginationEnabled = true)
    (hp : resolvePage (qlookup query "page") = page)
    (hl : resolveLimit cfg.defaultLimit cfg.maxLimit (qlookup query "limit") = limit)
    (hpos : 0 < limit) :
    listHandler cfg query (Except.ok data) (Except.ok total) =
      (ListResponse.paginated data
        ⟨total, page, limit, jsCeilDiv total limit, decide (page < jsCeilDiv total limit)⟩,
       [DbOp.findExec (buildFilter cfg.filterEnabled cfg.filterAllowed query)
          (applySort cfg.sortDefault cfg.sortAllowed (qlookup query "sort"))
          (some ((page - 1) * limit, limit)),
        DbOp.countDocuments (buildFilter cfg.filterEnabled cfg.filterAllowed query)]) ∧
    ((jsCeilDiv total limit - 1) * limit < (total : Int) ∧
      (total : Int) ≤ jsCeilDiv total limit * limit) ∧
    (decide (page < jsCeilDiv total limit) = true ↔ page < jsCeilDiv total limit) := by
  subst hp
  subst hl
  refine ⟨?_, jsCeilDiv_spec total _ hpos, by simp⟩
  simp [listHandler, hpag]

/-- C7 witness: total 124, requested page 1 and limit 10 give skip 0,
totalPages 13 and hasNextPage true. -/
theorem C7_pagination_math_witness :
    (listHandler (CrudConfig.mk true 20 100 "-createdAt" [] true [])
        [("page", "1"), ("limit", "10")] (Except.ok ([] : List Nat)) (Except.ok 124)).1 =
      ListResponse.paginated [] ⟨124, 1, 10, 13, true⟩ := by
  have h := (C7_pagination_math (CrudConfig.mk true 20 100 "-createdAt" [] true [])
      [("page", "1"), ("limit", "10")] ([] : List Nat) 124 1 10 rfl (by decide) (by decide)
      (by decide)).1
  rw [h]
  decide

/-- C5: when the configured body-validation predicate returns false, the
create handler responds 400 `{error: true, message: 'Validation failed'}`
and `model.create` is never invoked, whatever the hooks or the store would
have done. -/
theorem C5_validation_short_circuit {α : Type}
    (beforeCreate afterCreate : Option (Except String Unit))
    (createResult : Except String α) :
    createHandler (some (Except.ok false)) beforeCreate afterCreate createResult =
      (Resp.err 400 "Validation failed", false) := rfl

/-- C6: when the configured before-delete hook throws, `findByIdAndDelete`
is never invoked and the response is the error envelope with status 500
carrying the hook's message, or the fallback message when the hook's message
is empty. -/
theorem C6_before_delete_abort {α : Type} (i : String) (hi : i ≠ "")
    (m : String) (afterDelete : Option (Except String Unit))
    (deleteResult : Except String (Option α)) :
    deleteHandler (some i) (some (Except.error m)) afterDelete deleteResult =
      (Resp.err 500 (jsOrStr m "Failed to delete document"), false) := by
  simp [deleteHandler, hi, runHook]

/-- C6 witness: a before-delete hook throwing `Cannot delete admin users`
yields that message in a 500 envelope and no delete. -/
theorem C6_before_delete_abort_witness :
    deleteHandler (some "64a") (some (Except.error "Cannot delete admin users")) none
        (Except.ok (some (0 : Nat))) =
      (Resp.err 500 "Cannot delete admin users", false) := by
  have h := C6_before_delete_abort (α := Nat) "64a" (by decide)
      "Cannot delete admin users" none (Except.ok (some 0))
  simpa [jsOrStr] using h

/-- C9: whenever the persistence operation was reached and succeeded but the
configured after-hook throws, each handler responds with the error envelope
(status 400 for create and update, 500 for delete) carrying the hook's
message or the fallback — the success response is never sent, and the model
issues no compensating operation (the persisted-change flag stays true). -/
theorem C9_after_hook_failure {α : Type} (m : String) (doc : α) :
    (∀ (vb : Option (Except String Bool)) (bc : Option (Except String Unit)),
      (createHandler vb bc (some (Except.error m)) (Except.ok doc)).2 = true →
      (createHandler vb bc (some (Except.error m)) (Except.ok doc)).1 =
        Resp.err 400 (jsOrStr m "Failed to create document")) ∧
    (∀ (id : Option String) (bu : Option (Except String Unit)),
      (updateHandler id bu (some (Except.error m)) (Except.ok (some doc))).2 = true →
      (updateHandler id bu (some (Except.error m)) (Except.ok (some doc))).1 =
        Resp.err 400 (jsOrStr m "Failed to update document")) ∧
    (∀ (id : Option String) (bd : Option (Except String Unit)),
      (deleteHandler id bd (some (Except.error m)) (Except.ok (some doc))).2 = true →
      (deleteHandler id bd (some (Except.error m)) (Except.ok (some doc))).1 =
        Resp.err 500 (jsOrStr m "Failed to delete document")) := by
  refine ⟨?_, ?_, ?_⟩
  · intro vb bc h
    rcases vb with _ | vr
    · rcases bc with _ | br
      · simp [createHandler, runHook]
      · rcases br with e | u
        · simp [createHandler, runHook] at h
        · simp [createHandler, runHook]
    · rcases vr with e | b
      · simp [createHandler] at h
      · cases b
        · simp [createHandler] at h
        · rcases bc with _ | br
          · simp [createHandler, runHook]
          · rcases br with e | u
            · simp [createHandler, runHook] at h
            · simp [createHandler, runHook]
  · intro id bu h
    rcases id with _ | i
    · simp [updateHandler] at h
    · by_cases hi : i = ""
      · simp [updateHandler, hi] at h
      · rcases bu with _ | br
        · simp [updateHandler, hi, runHook]
        · rcases br with e | u
          · simp [updateHandler, hi, runHook] at h
          · simp [updateHandler, hi, runHook]
  · intro id bd h
    rcases id with _ | i
    · simp [deleteHandler] at h
    · by_cases hi : i = ""
      · simp [deleteHandler, hi] at h
      · rcases bd with _ | br
        · simp [deleteHandler, hi, runHook]
        · rcases br with e | u
          · simp [deleteHandler, hi, runHook] at h
          · simp [deleteHandler, hi, runHook]

/-- C9 witness: with no validator and no before-hooks configured, a
successful persist followed by a throwing after-hook yields the error
envelope in each of the three handlers. -/
theorem C9_after_hook_failure_witness :
    (createHandler none none (some (Except.error "boom")) (Except.ok (0 : Nat))).1 =
      Resp.err 400 "boom" ∧
    (updateHandler (some "a") none (some (Except.error "boom"))
      (Except.ok (some (0 : Nat)))).1 = Resp.err 400 "boom" ∧
    (deleteHandler (some "a") none (some (Except.error "boom"))
      (Except.ok (some (0 : Nat)))).1 = Resp.err 500 "boom" := by
  have h := C9_after_hook_failure "boom" (0 : Nat)
  exact ⟨by simpa [jsOrStr] using h.1 none none rfl,
    by simpa [jsOrStr] using h.2.1 (some "a") none rfl,
    by simpa [jsOrStr] using h.2.2 (some "a") none rfl⟩

/-- C10: during option normalization any falsy supplied value for
`pagination.defaultLimit`, `pagination.maxLimit` or `sort.default` is
replaced by the default (20, 100, `-createdAt`), while `pagination.enabled`
and `filter.enabled` are disabled exactly by the literal value `false` —
every other supplied value, including `0`, `null` and `undefined`, leaves
the feature enabled. -/
theorem C10_option_normalization (o : RawCrudOptions) :
    ((normalizeOpts o).paginationEnabled = false ↔
      o.paginationEnabled = JsVal.boolean false) ∧
    ((normalizeOpts o).filterEnabled = false ↔
      o.filterEnabled = JsVal.boolean false) ∧
    (o.paginationDefaultLimit.truthy = false →
      (normalizeOpts o).defaultLimit = JsVal.num 20) ∧
    (o.paginationMaxLimit.truthy = false →
      (normalizeOpts o).maxLimit = JsVal.num 100) ∧
    (o.sortDefault.truthy = false →
      (normalizeOpts o).sortDefault = JsVal.str "-createdAt") := by
  refine ⟨?_, ?_, ?_, ?_, ?_⟩
  · simp [normalizeOpts]
  · simp [normalizeOpts]
  · intro h
    simp [normalizeOpts, h]
  · intro h
    simp [normalizeOpts, h]
  · intro h
    simp [normalizeOpts, h]

/-- C10 witness: supplying `defaultLimit = 0`, `maxLimit = ""` and
`sort.default = undefined` yields the defaults 20, 100 and `-createdAt`. -/
theorem C10_option_normalization_witness :
    (normalizeOpts (RawCrudOptions.mk (JsVal.num 0) (JsVal.num 0) (JsVal.str "")
        JsVal.undef JsVal.nul)).defaultLimit = JsVal.num 20 ∧
    (normalizeOpts (RawCrudOptions.mk (JsVal.num 0) (JsVal.num 0) (JsVal.str "")
        JsVal.undef JsVal.nul)).maxLimit = JsVal.num 100 ∧
    (normalizeOpts (RawCrudOptions.mk (JsVal.num 0) (JsVal.num 0) (JsVal.str "")
        JsVal.undef JsVal.nul)).sortDefault = JsVal.str "-createdAt" := by
  have h := C10_option_normalization
      (RawCrudOptions.mk (JsVal.num 0) (JsVal.num 0) (JsVal.str "") JsVal.undef JsVal.nul)
  exact ⟨h.2.2.1 (by decide), h.2.2.2.1 (by decide), h.2.2.2.2 (by decide)⟩
